import Mathlib

/-
Verification of the LangX front-end orchestration logic.

The definitions below are a shallow embedding of the stateful handlers in
`frontend/src/App.jsx`, `frontend/src/components/Recorder.jsx` and the
audio-player component. React `useState` values become fields of explicit
state structures; each handler becomes a pure function from the pre-state
(plus the outcome of any awaited asynchronous operation, passed in as a
parameter) to the post-state together with a list of observable effects
(toast notifications, network requests, object-URL creation/revocation,
invocation of the translation stage). Object URLs are modelled as natural
numbers; binary blobs are abstracted to their byte size.
-/

namespace LangX

/-- Binary blob, abstracted to its byte size (all the code inspects). -/
structure Blob where
  size : Nat
deriving DecidableEq, Repr

/-- A selected file from the file input: name, MIME type and byte size. -/
structure JFile where
  name : String
  mimeType : String
  size : Nat
deriving DecidableEq, Repr

/-- Constant `ALLOWED_AUDIO_TYPES` from App.jsx. -/
def allowedAudioTypes : List String := ["audio/wav", "audio/mp3", "audio/mpeg"]

/-- Constant `MAX_FILE_SIZE` from App.jsx (10 MB). -/
def maxFileSize : Nat := 10 * 1024 * 1024

/-- Endpoint `API_ENDPOINTS.TRANSCRIBE`. -/
def transcribeEndpoint : String := "/transcribe"

/-- Endpoint `API_ENDPOINTS.TRANSLATE`. -/
def translateEndpoint : String := "/translate_text"

/-- Endpoint `API_ENDPOINTS.SYNTHESIZE`. -/
def synthesizeEndpoint : String := "/synthesize"

/-- Message `ERROR_MESSAGES.TRANSLATION.NO_TEXT`. -/
def errTranslationNoText : String := "No text to translate."

/-- Message `ERROR_MESSAGES.TRANSLATION.INVALID_LANG`. -/
def errTranslationInvalidLang : String := "Invalid target language."

/-- Message `ERROR_MESSAGES.TRANSLATION.FAILED`. -/
def errTranslationFailed : String := "Failed to translate text."

/-- Message `ERROR_MESSAGES.SYNTHESIS.NO_REFERENCE`. -/
def errSynthesisNoReference : String := "No reference audio provided."

/-- Message `ERROR_MESSAGES.SYNTHESIS.NO_TEXT`. -/
def errSynthesisNoText : String := "No text to synthesize."

/-- Message `ERROR_MESSAGES.SYNTHESIS.FAILED`. -/
def errSynthesisFailed : String := "Failed to synthesize voice."

/-- Message `ERROR_MESSAGES.TRANSCRIPTION.NO_AUDIO`. -/
def errTranscriptionNoAudioFile : String := "No audio file provided."

/-- Message `ERROR_MESSAGES.TRANSCRIPTION.INVALID_FORMAT`. -/
def errTranscriptionInvalidFormat : String := "Invalid audio format."

/-- Message `ERROR_MESSAGES.TRANSCRIPTION.FAILED`. -/
def errTranscriptionFailed : String := "Failed to transcribe audio."

/-- Message shown when an uploaded file exceeds `MAX_FILE_SIZE`. -/
def errFileTooLarge : String := "File size must be less than 10MB."

/-- Backend sentinel string compared against in both transcription handlers. -/
def sentinelNoTranscription : String := "No transcription available"

/-- Observable effects an App.jsx handler performs besides updating state. -/
inductive Effect where
  | notifyError (msg : String)
  | notifySuccess (msg : String)
  | netRequest (endpoint : String)
  | revokeURL (url : Nat)
  | createURL (url : Nat)
  | invokeTranslate (text : String)
deriving DecidableEq, Repr

/-- The React state of the `App` component (`useState`/`useRef` values in
App.jsx). `clonedAudioUrl` holds the object URL of the synthesized result,
`lastRecording` mirrors `lastRecordingRef.current`, `uploadedFile` the
state of the same name. -/
structure AppState where
  transcription : String
  translation : String
  isTranscribing : Bool
  isTranslating : Bool
  isCloning : Bool
  targetLang : String
  clonedAudioUrl : Option Nat
  lastRecording : Option Blob
  uploadedFile : Option JFile
deriving DecidableEq, Repr

/-- Outcome of the awaited `axios.post` to the translation endpoint:
either the request throws (network error, timeout, non-2xx), or it
resolves with a `translations` map from language code to translated
text (`response.data.translations`). -/
inductive TranslateResp where
  | netFailure
  | ok (translations : List (String × String))
deriving DecidableEq, Repr

/-- Outcome of the awaited `axios.post` to the transcription endpoint:
failure, or a 2xx response whose transcribed-text field holds the given
string (the code treats a missing or empty field as a failure itself). -/
inductive TranscribeResp where
  | netFailure
  | ok (text : String)
deriving DecidableEq, Repr

/-- Outcome of the awaited `axios.post` to the synthesis endpoint:
failure, or a 2xx blob response of the given byte size. -/
inductive SynthResp where
  | netFailure
  | ok (size : Nat)
deriving DecidableEq, Repr

/-- Embedding of `translateText` (App.jsx lines 171-209). Guard clauses
check `!text` and `!targetLang`; on JS strings those are true exactly for
the empty string. The success branch requires
`response.data.translations[targetLang]` to be present and truthy
(non-empty); otherwise the thrown error lands in the catch block, which
notifies the failure but leaves `translation` unchanged. Error
notifications of a failed request are collapsed to a single
`notifyError` effect. -/
def translateText (s : AppState) (text : String) (resp : TranslateResp) :
    AppState × List Effect :=
  if text = "" then
    (s, [.notifyError errTranslationNoText])
  else if s.targetLang = "" then
    (s, [.notifyError errTranslationInvalidLang])
  else
    match resp with
    | .netFailure =>
        ({ s with isTranslating := false },
         [.netRequest translateEndpoint, .notifyError errTranslationFailed])
    | .ok translations =>
        match translations.lookup s.targetLang with
        | none =>
            ({ s with isTranslating := false },
             [.netRequest translateEndpoint, .notifyError errTranslationFailed])
        | some t =>
            if t = "" then
              ({ s with isTranslating := false },
               [.netRequest translateEndpoint, .notifyError errTranslationFailed])
            else
              ({ s with translation := t, isTranslating := false },
               [.netRequest translateEndpoint,
                .notifySuccess "Translation completed!"])

/-- Embedding of `handleCloneVoice` (App.jsx lines 338-417). The two guard
clauses return before the network call. After a resolved request the code
throws on an empty body (`response.data.size === 0`); the catch block
nulls `clonedAudioUrl`. On success the previous object URL, if any, is
revoked before a fresh one (`freshUrl`) is created and stored. -/
def handleCloneVoice (s : AppState) (resp : SynthResp) (freshUrl : Nat) :
    AppState × List Effect :=
  if s.translation = "" then
    (s, [.notifyError errSynthesisNoText])
  else if s.lastRecording.isNone && s.uploadedFile.isNone then
    (s, [.notifyError errSynthesisNoReference])
  else
    match resp with
    | .netFailure =>
        ({ s with clonedAudioUrl := none, isCloning := false },
         [.netRequest synthesizeEndpoint, .notifyError errSynthesisFailed])
    | .ok size =>
        if size = 0 then
          ({ s with clonedAudioUrl := none, isCloning := false },
           [.netRequest synthesizeEndpoint, .notifyError errSynthesisFailed])
        else
          match s.clonedAudioUrl with
          | some old =>
              ({ s with clonedAudioUrl := some freshUrl, isCloning := false },
               [.netRequest synthesizeEndpoint, .revokeURL old,
                .createURL freshUrl,
                .notifySuccess "Voice cloning complete!"])
          | none =>
              ({ s with clonedAudioUrl := some freshUrl, isCloning := false },
               [.netRequest synthesizeEndpoint, .createURL freshUrl,
                .notifySuccess "Voice cloning complete!"])

/-- Embedding of `handleLanguageChange` (App.jsx lines 149-153). -/
def handleLanguageChange (s : AppState) (newLang : String) : AppState :=
  { s with targetLang := newLang, translation := "" }

/-- Embedding of `handleRecordingComplete` (App.jsx lines 211-252). On a
successful transcription the text is stored and, unless it equals the
backend sentinel, `translateText` is awaited with it (recorded as an
`invokeTranslate` effect followed by that call's own effects). -/
def handleRecordingComplete (s : AppState) (blob : Option Blob)
    (resp : TranscribeResp) (tresp : TranslateResp) : AppState × List Effect :=
  match blob with
  | none => (s, [.notifyError errTranscriptionNoAudioFile])
  | some b =>
    let s1 := { s with isTranscribing := true, translation := "",
                       clonedAudioUrl := none, lastRecording := some b }
    match resp with
    | .netFailure =>
        ({ s1 with transcription := "", isTranscribing := false },
         [.netRequest transcribeEndpoint, .notifyError errTranscriptionFailed])
    | .ok t =>
        if t = "" then
          ({ s1 with transcription := "", isTranscribing := false },
           [.netRequest transcribeEndpoint,
            .notifyError errTranscriptionFailed])
        else
          let s2 := { s1 with transcription := t }
          if t = sentinelNoTranscription then
            ({ s2 with isTranscribing := false },
             [.netRequest transcribeEndpoint,
              .notifySuccess "Transcription complete!"])
          else
            let r := translateText s2 t tresp
            ({ r.1 with isTranscribing := false },
             [.netRequest transcribeEndpoint,
              .notifySuccess "Transcription complete!",
              .invokeTranslate t] ++ r.2)

/-- Embedding of `handleFileUpload` (App.jsx lines 254-329). The type and
size validations run before any state change or network activity; on
success the transcription flow mirrors `handleRecordingComplete`, checking
`response.data.text` and the same sentinel before awaiting
`translateText`. -/
def handleFileUpload (s : AppState) (file : Option JFile)
    (resp : TranscribeResp) (tresp : TranslateResp) : AppState × List Effect :=
  match file with
  | none => (s, [])
  | some f =>
    if (allowedAudioTypes.contains f.mimeType) = false then
      (s, [.notifyError errTranscriptionInvalidFormat])
    else if maxFileSize < f.size then
      (s, [.notifyError errFileTooLarge])
    else
      let s1 := { s with uploadedFile := some f, isTranscribing := true,
                         translation := "", clonedAudioUrl := none }
      match resp with
      | .netFailure =>
          ({ s1 with transcription := "", isTranscribing := false },
           [.notifySuccess "Audio file uploaded successfully!",
            .netRequest transcribeEndpoint,
            .notifyError errTranscriptionFailed])
      | .ok t =>
          if t = "" then
            ({ s1 with transcription := "", isTranscribing := false },
             [.notifySuccess "Audio file uploaded successfully!",
              .netRequest transcribeEndpoint,
              .notifyError errTranscriptionFailed])
          else
            let s2 := { s1 with transcription := t }
            if t = sentinelNoTranscription then
              ({ s2 with isTranscribing := false },
               [.notifySuccess "Audio file uploaded successfully!",
                .netRequest transcribeEndpoint,
                .notifySuccess "Transcription complete!"])
            else
              let r := translateText s2 t tresp
              ({ r.1 with isTranscribing := false },
               [.notifySuccess "Audio file uploaded successfully!",
                .netRequest transcribeEndpoint,
                .notifySuccess "Transcription complete!",
                .invokeTranslate t] ++ r.2)

/-- Update the set of live (created but not yet revoked) object URLs by
one effect. -/
def applyEffect (live : List Nat) : Effect → List Nat
  | .createURL u => u :: live
  | .revokeURL u => live.filter (fun x => x ≠ u)
  | _ => live

/-- Live object URLs after a whole effect list has run. -/
def liveAfter (live : List Nat) : List Effect → List Nat
  | [] => live
  | e :: es => liveAfter (applyEffect live e) es

/-- Every intermediate set of live object URLs along an effect list,
including the initial and final ones. -/
def liveTrace (live : List Nat) : List Effect → List (List Nat)
  | [] => [live]
  | e :: es => live :: liveTrace (applyEffect live e) es

/-- Number of times an effect list revokes the given URL. -/
def countRevokes (u : Nat) (effs : List Effect) : Nat :=
  (effs.filter (fun e => e = Effect.revokeURL u)).length

/-- Whether an effect list issues any network request. -/
def hasNetRequest (effs : List Effect) : Bool :=
  effs.any (fun e => match e with | .netRequest _ => true | _ => false)

/-- Observable effects of the `Recorder` component: object-URL creation,
the microphone-permission request, starting/stopping the underlying
recorder session, and the `onRecordingComplete` callback. -/
inductive REffect where
  | createURL (url : Nat)
  | requestMic
  | startSession
  | stopSession
  | callbackComplete (b : Blob)
deriving DecidableEq, Repr

/-- The React state of the `Recorder` component (Recorder.jsx).
`hasRecorder` mirrors whether `recorderRef.current` is non-null; errors
surface through the `errorMsg` state shown in the snackbar. -/
structure RecorderState where
  isRecording : Bool
  isPlaying : Bool
  isLoading : Bool
  audioUrl : Option Nat
  errorMsg : Option String
  hasRecorder : Bool
deriving DecidableEq, Repr

/-- Outcome of the awaited `recorderRef.current.stop()`. -/
inductive StopOutcome where
  | failure
  | ok (b : Blob)
deriving DecidableEq, Repr

/-- Outcome of the awaited `navigator.mediaDevices.getUserMedia`. -/
inductive MicOutcome where
  | notAllowed
  | notFound
  | otherFailure
  | ok
deriving DecidableEq, Repr

/-- Embedding of `stopRecording` (Recorder.jsx lines 47-65). When
`recorderRef.current` is null the function returns immediately with no
state change and no effect. Otherwise it awaits `stop()`: on success it
creates an object URL (`freshUrl`) for the blob, clears the recording
flag and fires the completion callback; on failure `handleError` stores a
message and clears the loading and recording flags. -/
def stopRecording (s : RecorderState) (outcome : StopOutcome)
    (freshUrl : Nat) : RecorderState × List REffect :=
  if s.hasRecorder = false then
    (s, [])
  else
    match outcome with
    | .failure =>
        ({ s with errorMsg := some "Failed to stop recording. Please try again.",
                  isLoading := false, isRecording := false },
         [.stopSession])
    | .ok b =>
        ({ s with errorMsg := none, audioUrl := some freshUrl,
                  isRecording := false, isLoading := false },
         [.stopSession, .createURL freshUrl, .callbackComplete b])

/-- Embedding of `startRecording` (Recorder.jsx lines 21-45). The function
performs no check of `isRecording`: it always requests the microphone,
and on success swaps in a fresh recorder, starts it and sets the recording
flag. On a failed permission request `handleError` stores the matching
message. -/
def startRecording (s : RecorderState) (outcome : MicOutcome) :
    RecorderState × List REffect :=
  match outcome with
  | .ok =>
      ({ s with errorMsg := none, hasRecorder := true, isRecording := true,
                audioUrl := none, isLoading := false },
       [.requestMic, .startSession])
  | .notAllowed =>
      ({ s with errorMsg := some "Microphone access was denied. Please allow microphone access to record audio.",
                isLoading := false, isRecording := false },
       [.requestMic])
  | .notFound =>
      ({ s with errorMsg := some "No microphone found. Please connect a microphone and try again.",
                isLoading := false, isRecording := false },
       [.requestMic])
  | .otherFailure =>
      ({ s with errorMsg := some "Failed to start recording",
                isLoading := false, isRecording := false },
       [.requestMic])

/-- The React state of the `AudioPlayer` component that the claims touch:
the volume slider value, the two mute flags (React state and the DOM
element's `muted` property) and whether `audioRef.current` is non-null. -/
structure PlayerState where
  isPlaying : Bool
  volume : ℚ
  isMuted : Bool
  elemMuted : Bool
  hasElem : Bool
deriving DecidableEq, Repr

/-- Embedding of `handleMuteToggle` (AudioPlayer component, lines
140-151). When the audio element exists the mute flag is flipped onto the
element and the state; muting sets the stored volume to 0 and unmuting
sets it to 1. -/
def handleMuteToggle (s : PlayerState) : PlayerState :=
  if s.hasElem = false then s
  else
    let newMuted := !s.isMuted
    if newMuted then
      { s with elemMuted := newMuted, isMuted := newMuted, volume := 0 }
    else
      { s with elemMuted := newMuted, isMuted := newMuted, volume := 1 }

/-- A state after a full successful pipeline run: transcription and
translation present, a previous synthesized-result URL (7) live, the last
recording available as reference audio. -/
def sampleReady : AppState :=
  { transcription := "Hello world", translation := "Hola mundo",
    isTranscribing := false, isTranslating := false, isCloning := false,
    targetLang := "es", clonedAudioUrl := some 7,
    lastRecording := some ⟨2048⟩, uploadedFile := none }

/-- Variant of `sampleReady` with an empty target language. -/
def sampleNoLang : AppState := { sampleReady with targetLang := "" }

/-- Variant of `sampleReady` with no reference audio available. -/
def sampleNoRef : AppState :=
  { sampleReady with lastRecording := none, uploadedFile := none }

/-- Variant of `sampleReady` with an empty translation. -/
def sampleNoTranslation : AppState := { sampleReady with translation := "" }

/-- Recorder state before any session has been created. -/
def recorderIdle : RecorderState :=
  { isRecording := false, isPlaying := false, isLoading := false,
    audioUrl := none, errorMsg := none, hasRecorder := false }

/-- Recorder state in the middle of a recording session. -/
def recorderLive : RecorderState :=
  { isRecording := true, isPlaying := false, isLoading := false,
    audioUrl := none, errorMsg := none, hasRecorder := true }

/-- Player state with the volume slider at one half, not muted. -/
def playerHalf : PlayerState :=
  { isPlaying := false, volume := 1/2, isMuted := false,
    elemMuted := false, hasElem := true }

/-- Claim C1: when `handleCloneVoice` succeeds (non-empty response body)
while a previous synthesized-result URL is live, the handler revokes that
URL exactly once, before creating and storing the fresh one, so along the
whole operation at most one synthesized-result handle is live and at the
end exactly the new one is. -/
theorem synthesize_success_releases_previous_url_once
    (s : AppState) (old fresh size : Nat)
    (ht : s.translation ≠ "")
    (hr : (s.lastRecording.isNone && s.uploadedFile.isNone) = false)
    (hurl : s.clonedAudioUrl = some old)
    (hsize : size ≠ 0) :
    (handleCloneVoice s (.ok size) fresh).2 =
      [.netRequest synthesizeEndpoint, .revokeURL old, .createURL fresh,
       .notifySuccess "Voice cloning complete!"] ∧
    countRevokes old (handleCloneVoice s (.ok size) fresh).2 = 1 ∧
    (handleCloneVoice s (.ok size) fresh).1.clonedAudioUrl = some fresh ∧
    liveAfter [old] (handleCloneVoice s (.ok size) fresh).2 = [fresh] ∧
    ∀ l ∈ liveTrace [old] (handleCloneVoice s (.ok size) fresh).2,
      l.length ≤ 1 := by
  simp [handleCloneVoice, ht, hr, hurl, hsize, countRevokes, liveAfter,
        liveTrace, applyEffect]

/-- Witness for C1 at a concrete post-pipeline state. -/
theorem synthesize_success_releases_previous_url_once_witness :
    (handleCloneVoice sampleReady (.ok 512) 9).2 =
      [.netRequest synthesizeEndpoint, .revokeURL 7, .createURL 9,
       .notifySuccess "Voice cloning complete!"] ∧
    countRevokes 7 (handleCloneVoice sampleReady (.ok 512) 9).2 = 1 ∧
    (handleCloneVoice sampleReady (.ok 512) 9).1.clonedAudioUrl = some 9 :=
  have h := synthesize_success_releases_previous_url_once sampleReady 7 9 512
    (by decide) (by decide) (by decide) (by decide)
  ⟨h.1, h.2.1, h.2.2.1⟩

/-- Claim C2: `translateText` with empty text fails with the
no-text message, and with non-empty text but empty target language fails
with the invalid-language message; in both cases it returns with the
state (hence the displayed translation) unchanged and issues no network
request. -/
theorem translate_precondition_failures
    (s : AppState) (text : String) (resp : TranslateResp) :
    (text = "" →
      translateText s text resp = (s, [.notifyError errTranslationNoText]) ∧
      hasNetRequest (translateText s text resp).2 = false) ∧
    (text ≠ "" → s.targetLang = "" →
      translateText s text resp =
        (s, [.notifyError errTranslationInvalidLang]) ∧
      hasNetRequest (translateText s text resp).2 = false) := by
  refine ⟨fun h => ?_, fun h1 h2 => ?_⟩
  · subst h; simp [translateText, hasNetRequest]
  · simp [translateText, h1, h2, hasNetRequest]

/-- Witness for C2: translating an empty string, and translating with an
empty target language. -/
theorem translate_precondition_failures_witness :
    (translateText sampleReady "" .netFailure =
      (sampleReady, [.notifyError errTranslationNoText])) ∧
    (translateText sampleNoLang "hola" .netFailure =
      (sampleNoLang, [.notifyError errTranslationInvalidLang])) :=
  ⟨((translate_precondition_failures sampleReady "" .netFailure).1 rfl).1,
   ((translate_precondition_failures sampleNoLang "hola" .netFailure).2
      (by decide) rfl).1⟩

/-- Claim C3: `handleCloneVoice` with an empty translation fails with the
no-text message, and with a translation but no reference audio (neither a
last recording nor an uploaded file) fails with the no-reference message;
both guards return with the state unchanged and no network request. -/
theorem synthesize_precondition_failures
    (s : AppState) (resp : SynthResp) (fresh : Nat) :
    (s.translation = "" →
      handleCloneVoice s resp fresh = (s, [.notifyError errSynthesisNoText]) ∧
      hasNetRequest (handleCloneVoice s resp fresh).2 = false) ∧
    (s.translation ≠ "" →
      (s.lastRecording.isNone && s.uploadedFile.isNone) = true →
      handleCloneVoice s resp fresh =
        (s, [.notifyError errSynthesisNoReference]) ∧
      hasNetRequest (handleCloneVoice s resp fresh).2 = false) := by
  refine ⟨fun h => ?_, fun h1 h2 => ?_⟩
  · simp [handleCloneVoice, h, hasNetRequest]
  · simp [handleCloneVoice, h1, h2, hasNetRequest]

/-- Witness for C3: empty translated text, and missing reference audio. -/
theorem synthesize_precondition_failures_witness :
    (handleCloneVoice sampleNoTranslation .netFailure 9 =
      (sampleNoTranslation, [.notifyError errSynthesisNoText])) ∧
    (handleCloneVoice sampleNoRef .netFailure 9 =
      (sampleNoRef, [.notifyError errSynthesisNoReference])) :=
  ⟨((synthesize_precondition_failures sampleNoTranslation .netFailure 9).1
      rfl).1,
   ((synthesize_precondition_failures sampleNoRef .netFailure 9).2
      (by decide) (by decide)).1⟩

/-- Claim C4: when `handleCloneVoice` fails after its preconditions passed
(request failure or a zero-length response body), the synthesized-result
URL is set to null while the transcription and translation fields are left
unchanged. -/
theorem synthesize_failure_clears_url_keeps_texts
    (s : AppState) (resp : SynthResp) (fresh : Nat)
    (ht : s.translation ≠ "")
    (hr : (s.lastRecording.isNone && s.uploadedFile.isNone) = false)
    (hfail : resp = .netFailure ∨ resp = .ok 0) :
    (handleCloneVoice s resp fresh).1.clonedAudioUrl = none ∧
    (handleCloneVoice s resp fresh).1.transcription = s.transcription ∧
    (handleCloneVoice s resp fresh).1.translation = s.translation := by
  rcases hfail with h | h <;> subst h <;> simp [handleCloneVoice, ht, hr]

/-- Witness for C4 at a concrete state, for both failure shapes. -/
theorem synthesize_failure_clears_url_keeps_texts_witness :
    ((handleCloneVoice sampleReady .netFailure 9).1.clonedAudioUrl = none ∧
     (handleCloneVoice sampleReady .netFailure 9).1.transcription =
       sampleReady.transcription ∧
     (handleCloneVoice sampleReady .netFailure 9).1.translation =
       sampleReady.translation) ∧
    (handleCloneVoice sampleReady (.ok 0) 9).1.clonedAudioUrl = none :=
  ⟨synthesize_failure_clears_url_keeps_texts sampleReady .netFailure 9
     (by decide) (by decide) (Or.inl rfl),
   (synthesize_failure_clears_url_keeps_texts sampleReady (.ok 0) 9
     (by decide) (by decide) (Or.inr rfl)).1⟩

/-- Claim C5 counterexample: calling `stopRecording` in a state with no
recorder (not recording) raises no error at all — it returns the state
unchanged with no effects — and calling `startRecording` while a
recording is in progress also raises no error (it simply starts a new
session); neither invalid transition fails with an InvalidState error as
the claim requires. -/
theorem capture_invalid_state_counterexample :
    stopRecording recorderIdle .failure 0 = (recorderIdle, []) ∧
    (stopRecording recorderIdle .failure 0).1.errorMsg = none ∧
    recorderIdle.isRecording = false ∧
    (startRecording recorderLive .ok).1.errorMsg = none ∧
    (startRecording recorderLive .ok).1.isRecording = true ∧
    recorderLive.isRecording = true := by decide

/-- Claim C5 (amended): calling stop when no recorder session object
exists returns silently — no error is raised and the state and effects
are empty — and `startRecording` performs no already-recording check:
called while a recording is in progress it raises no InvalidState error
and simply requests the microphone and starts a fresh session. -/
theorem capture_invalid_transitions_silent
    (s1 s2 : RecorderState) (o : StopOutcome) (u : Nat)
    (h1 : s1.hasRecorder = false) (h2 : s2.isRecording = true) :
    stopRecording s1 o u = (s1, []) ∧
    (startRecording s2 .ok).1.errorMsg = none ∧
    (startRecording s2 .ok).1.isRecording = true ∧
    (startRecording s2 .ok).2 = [.requestMic, .startSession] := by
  simp [stopRecording, startRecording, h1]

/-- Witness for the amended C5 at the concrete idle and recording
states. -/
theorem capture_invalid_transitions_silent_witness :
    stopRecording recorderIdle .failure 3 = (recorderIdle, []) ∧
    (startRecording recorderLive .ok).1.errorMsg = none :=
  have h := capture_invalid_transitions_silent recorderIdle recorderLive
    .failure 3 (by decide) (by decide)
  ⟨h.1, h.2.1⟩

/-- Claim C6 counterexample: with the volume at one half and not muted,
toggling mute twice leaves the volume at 1, not at the prior value — the
controller does not remember and restore the pre-mute volume. -/
theorem mute_toggle_restore_counterexample :
    (handleMuteToggle (handleMuteToggle playerHalf)).volume ≠
      playerHalf.volume ∧
    playerHalf.hasElem = true ∧ playerHalf.isMuted = false ∧
    0 ≤ playerHalf.volume ∧ playerHalf.volume ≤ 1 := by
  refine ⟨?_, rfl, rfl, ?_, ?_⟩ <;> norm_num [handleMuteToggle, playerHalf]

/-- Claim C6 (amended): toggling mute sets the muted flag and forces the
stored volume to 0; toggling again clears the flag and sets the volume to
1 regardless of the pre-mute value, so the prior volume is restored only
when it was exactly 1. -/
theorem mute_toggle_sets_zero_then_one (s : PlayerState)
    (he : s.hasElem = true) (hm : s.isMuted = false) :
    (handleMuteToggle s).isMuted = true ∧
    (handleMuteToggle s).volume = 0 ∧
    (handleMuteToggle (handleMuteToggle s)).isMuted = false ∧
    (handleMuteToggle (handleMuteToggle s)).volume = 1 := by
  simp [handleMuteToggle, he, hm]

/-- Witness for the amended C6 at the half-volume player state. -/
theorem mute_toggle_sets_zero_then_one_witness :
    (handleMuteToggle playerHalf).volume = 0 ∧
    (handleMuteToggle (handleMuteToggle playerHalf)).volume = 1 :=
  have h := mute_toggle_sets_zero_then_one playerHalf (by decide) (by decide)
  ⟨h.2.1, h.2.2.2⟩

/-- Claim C7: after a successful transcription (in both the
recording-complete and the file-upload handler), `translateText` is
invoked with the transcribed text if and only if that text differs from
the backend sentinel string. -/
theorem transcription_triggers_translation_iff_not_sentinel
    (s : AppState) (b : Blob) (f : JFile) (t : String) (tresp : TranslateResp)
    (ht : t ≠ "")
    (hty : allowedAudioTypes.contains f.mimeType = true)
    (hsz : f.size ≤ maxFileSize) :
    (Effect.invokeTranslate t ∈
        (handleRecordingComplete s (some b) (.ok t) tresp).2 ↔
      t ≠ sentinelNoTranscription) ∧
    (Effect.invokeTranslate t ∈
        (handleFileUpload s (some f) (.ok t) tresp).2 ↔
      t ≠ sentinelNoTranscription) := by
  have hsz' : ¬ (maxFileSize < f.size) := Nat.not_lt.mpr hsz
  have hsent : sentinelNoTranscription ≠ "" := by decide
  have hty' : f.mimeType ∈ allowedAudioTypes := by simpa using hty
  by_cases hs : t = sentinelNoTranscription
  · subst hs
    simp [handleRecordingComplete, handleFileUpload, hsent, hty', hsz']
  · simp [handleRecordingComplete, handleFileUpload, ht, hty', hsz', hs]

/-- Witness for C7: the transcribed text is not the sentinel, so the
translation stage is invoked in both handlers. -/
theorem transcription_triggers_translation_iff_not_sentinel_witness :
    ("Hi" : String) ≠ sentinelNoTranscription ∧
    Effect.invokeTranslate "Hi" ∈
      (handleRecordingComplete sampleReady (some ⟨16⟩) (.ok "Hi")
        (.ok [("es", "Hola")])).2 :=
  have h := transcription_triggers_translation_iff_not_sentinel sampleReady
    ⟨16⟩ ⟨"ref.wav", "audio/wav", 2048⟩ "Hi" (.ok [("es", "Hola")])
    (by decide) (by decide) (by decide)
  ⟨by decide, h.1.mpr (by decide)⟩

/-- Claim C8: `handleFileUpload` rejects a file whose MIME type is not
among the allowed audio types, or whose size exceeds 10 MB, with a single
error notification, leaving the state unchanged and issuing no network
request (so no transcription request is made). -/
theorem upload_rejects_invalid_type_or_size
    (s : AppState) (f : JFile) (resp : TranscribeResp) (tresp : TranslateResp)
    (h : allowedAudioTypes.contains f.mimeType = false ∨
         maxFileSize < f.size) :
    (handleFileUpload s (some f) resp tresp).1 = s ∧
    hasNetRequest (handleFileUpload s (some f) resp tresp).2 = false ∧
    ((handleFileUpload s (some f) resp tresp).2 =
        [.notifyError errTranscriptionInvalidFormat] ∨
     (handleFileUpload s (some f) resp tresp).2 =
        [.notifyError errFileTooLarge]) := by
  rcases h with h | h
  · have h' : f.mimeType ∉ allowedAudioTypes := by simpa using h
    simp [handleFileUpload, h', hasNetRequest]
  · by_cases hty : f.mimeType ∈ allowedAudioTypes <;>
      simp [handleFileUpload, hty, h, hasNetRequest]

/-- Witness for C8: a fifteen-megabyte wav file is rejected locally. -/
theorem upload_rejects_invalid_type_or_size_witness :
    (handleFileUpload sampleReady
        (some ⟨"big.wav", "audio/wav", 15 * 1024 * 1024⟩)
        .netFailure .netFailure).1 = sampleReady ∧
    hasNetRequest (handleFileUpload sampleReady
        (some ⟨"big.wav", "audio/wav", 15 * 1024 * 1024⟩)
        .netFailure .netFailure).2 = false :=
  have h := upload_rejects_invalid_type_or_size sampleReady
    ⟨"big.wav", "audio/wav", 15 * 1024 * 1024⟩ .netFailure .netFailure
    (Or.inr (by decide))
  ⟨h.1, h.2.1⟩

/-- Claim C9: changing the target language stores the new language and
clears the displayed translation, leaving the transcription and the
synthesized-result URL unchanged. -/
theorem language_change_clears_translation
    (s : AppState) (newLang : String) (hdisp : s.translation ≠ "") :
    (handleLanguageChange s newLang).targetLang = newLang ∧
    (handleLanguageChange s newLang).translation = "" ∧
    (handleLanguageChange s newLang).transcription = s.transcription ∧
    (handleLanguageChange s newLang).clonedAudioUrl = s.clonedAudioUrl := by
  simp [handleLanguageChange]

/-- Witness for C9 at a state with a displayed translation. -/
theorem language_change_clears_translation_witness :
    (handleLanguageChange sampleReady "fr").targetLang = "fr" ∧
    (handleLanguageChange sampleReady "fr").translation = "" ∧
    (handleLanguageChange sampleReady "fr").transcription =
      sampleReady.transcription ∧
    (handleLanguageChange sampleReady "fr").clonedAudioUrl =
      sampleReady.clonedAudioUrl :=
  language_change_clears_translation sampleReady "fr" (by decide)

/-- Claim C10: when `handleCloneVoice` fails after its preconditions
passed while a previous synthesized-result URL is live, the reference is
set to null without the URL ever being revoked, so the previous handle
stays live (leaked) on the error path. -/
theorem synthesize_failure_drops_url_unreleased
    (s : AppState) (old fresh : Nat) (resp : SynthResp)
    (ht : s.translation ≠ "")
    (hr : (s.lastRecording.isNone && s.uploadedFile.isNone) = false)
    (hurl : s.clonedAudioUrl = some old)
    (hfail : resp = .netFailure ∨ resp = .ok 0) :
    (handleCloneVoice s resp fresh).1.clonedAudioUrl = none ∧
    countRevokes old (handleCloneVoice s resp fresh).2 = 0 ∧
    old ∈ liveAfter [old] (handleCloneVoice s resp fresh).2 := by
  rcases hfail with h | h <;> subst h <;>
    simp [handleCloneVoice, ht, hr, countRevokes, liveAfter, applyEffect]

/-- Witness for C10 at a concrete state with URL 7 live. -/
theorem synthesize_failure_drops_url_unreleased_witness :
    (handleCloneVoice sampleReady .netFailure 9).1.clonedAudioUrl = none ∧
    countRevokes 7 (handleCloneVoice sampleReady .netFailure 9).2 = 0 ∧
    7 ∈ liveAfter [7] (handleCloneVoice sampleReady .netFailure 9).2 :=
  synthesize_failure_drops_url_unreleased sampleReady 7 9 .netFailure
    (by decide) (by decide) (by decide) (Or.inl rfl)

end LangX
